import Mathlib

/-!
Verification of the BDMV/MPLS playlist parsing subsystem (`svsfunc/bdmv.py`
and `svsfunc/utils.py`).

Paths are modelled as lists of segments (the result of `Path.parts`), and the
filesystem as a finite association list from paths to a file kind.  The binary
playlist decoder (`pyparsebluray`) and the tick/timestamp numeric collaborator
(`pytimeconv`) are external libraries: the spec scopes them out and only
describes the four field groups and the two conversions the core consumes, so
their outputs are modelled as explicit inputs (decoded play-item and mark
tables) and the conversions are modelled from the spec's description.
-/

/-- Kind of a filesystem entry: a regular file or a directory. -/
inductive FileKind
  | file
  | dir
  deriving DecidableEq, Repr

/-- A filesystem: a finite map from paths (segment lists) to entry kinds. -/
structure FS where
  entries : List (List String × FileKind)
  deriving DecidableEq

/-- Kind of the entry at a path, if the path exists. -/
def FS.kindOf (fs : FS) (p : List String) : Option FileKind :=
  fs.entries.lookup p

/-- Python `Path.exists()`: the path has an entry of any kind. -/
def FS.pathExists (fs : FS) (p : List String) : Bool :=
  (fs.kindOf p).isSome

/-- Python `Path.is_dir()`: the path exists and is a directory. -/
def FS.isDir (fs : FS) (p : List String) : Bool :=
  fs.kindOf p == some FileKind.dir

/-- Failure modes of the subsystem.  The code raises `ValueError` with distinct
messages at each site; the spec names them as an error taxonomy.  `indexError`
and `keyError` model Python `IndexError`/`KeyError` escaping from expressions
that are not guarded by any `raise` site. -/
inductive BdErr
  | invalidPathError
  | invalidVolumeError
  | playlistNotFoundError
  | ambiguousPlaylistError
  | indexError
  | malformedPlaylistError
  | missingMediaReferenceError
  | missingFieldError
  | missingFrameRateError
  | unknownFrameRateError
  | keyError
  | precisionError
  deriving DecidableEq, Repr

/-- `svsfunc.utils.ensure_path`: raise `InvalidPathError` unless the path
exists, then return it resolved (resolution is the identity in this model,
which has no symlinks or relative paths). -/
def ensure_path (fs : FS) (path : List String) : Except BdErr (List String) :=
  if !fs.pathExists path then Except.error BdErr.invalidPathError else Except.ok path

/-- Python `str(n).zfill(5)` for a natural number. -/
def zfill5 (n : Nat) : String :=
  let s := toString n
  if s.length ≥ 5 then s else String.mk (List.replicate (5 - s.length) '0' ++ s.data)

/-- Shortest length among a list of segment lists (`zip` truncation length). -/
def minLen : List (List String) → Nat
  | [] => 0
  | [l] => l.length
  | l :: ls => Nat.min l.length (minLen ls)

/-- Column `i` of the zipped paths agrees everywhere (`len(set(col)) == 1`). -/
def colEq (ls : List (List String)) (i : Nat) : Bool :=
  match ls with
  | [] => true
  | l :: rest => rest.all fun m => m.getD i "" == l.getD i ""

/-- The common-path computation of `BDMV.from_volumes`:
`[p[0] for p in zip(*all_path) if len(set(p)) == 1]` — it keeps EVERY column
index (up to the shortest path) at which all paths agree, including columns
after the first divergence. -/
def pyCommonParts (ls : List (List String)) : List String :=
  match ls with
  | [] => []
  | l :: rest =>
      (List.range (minLen (l :: rest))).filterMap fun i =>
        if colEq (l :: rest) i then some (l.getD i "") else none

/-- Modelled from the spec: longest shared prefix of two segment lists,
compared segment-by-segment, stopping at the first divergence. -/
def lcpTwo : List String → List String → List String
  | a :: as, b :: bs => if a == b then a :: lcpTwo as bs else []
  | _, _ => []

/-- Modelled from the spec: longest shared prefix of all the given paths'
segment lists, stopping at the first divergence. -/
def lcpParts : List (List String) → List String
  | [] => []
  | l :: ls => ls.foldl lcpTwo l

/-- Entry of `stn_table.prim_video_stream_entries`: the second component of
each pair carries the frame-rate code (an `int`; `0` is falsy). -/
structure StreamEntry where
  framerate : Nat
  deriving DecidableEq, Repr

/-- The `stn_table` field group of a decoded play-item. -/
structure StnTable where
  length : Nat
  prim_video_stream_entries : List (Unit × StreamEntry)
  deriving DecidableEq, Repr

/-- A decoded play-item, with the optional fields the core consumes. -/
structure PlayItem where
  clip_information_filename : Option String
  clip_codec_identifier : Option String
  intime : Option Nat
  stn_table : Option StnTable
  deriving DecidableEq, Repr

/-- A decoded playlist mark. -/
structure PlaylistMark where
  ref_to_play_item_id : Nat
  mark_timestamp : Nat
  deriving DecidableEq, Repr

/-- Modelled from the spec: the fixed code-to-rational-frame-rate lookup table
of the binary playlist decoder (`mpls.FRAMERATE`), a plain finite map over the
standard broadcast/film rates. -/
def FRAMERATE : List (Nat × ℚ) :=
  [(1, 24000 / 1001), (2, 24), (3, 25), (4, 30000 / 1001), (6, 50), (7, 60000 / 1001)]

/-- Modelled from the spec: `pytimeconv`'s seconds-to-frame conversion at a
given rational frame rate — round the time multiplied by the exact rational
frame rate to the nearest frame. -/
def Convert.seconds2f (s : ℚ) (fps : ℚ) : ℤ :=
  round (s * fps)

/-- Modelled from the spec: `pytimeconv`'s frame-to-timestamp-string rendering
(`HH:MM:SS.fff` at the item's frame rate).  The precision must be a
non-negative multiple of 3 (0 included); other values raise a validation
error. -/
def Convert.f2ts (frame : ℤ) (fps : ℚ) (precision : ℤ) : Except BdErr String :=
  if precision % 3 = 0 ∧ 0 ≤ precision then
    let t : ℚ := (frame : ℚ) / fps
    let total : ℤ := ⌊t⌋
    let hh := total / 3600
    let mm := (total % 3600) / 60
    let ss := total % 60
    let base := toString hh ++ ":" ++ toString mm ++ ":" ++ toString ss
    if precision = 0 then Except.ok base
    else Except.ok (base ++ "." ++ toString ⌊(t - (total : ℚ)) * (10 : ℚ) ^ precision.toNat⌋)
  else Except.error BdErr.precisionError

/-- Python truthiness of an optional string (`None` and `""` are falsy). -/
def pyTruthy : Option String → Bool
  | none => false
  | some s => !(s == "")

/-- The test `(file_name or file_ext) is None` of `MplsFile.parse`: `a or b`
evaluates to `a` when `a` is truthy and to `b` otherwise, so the whole test
holds exactly when `a` is falsy and `b` is `None`. -/
def pyOrIsNone (a b : Option String) : Bool :=
  !pyTruthy a && b == none

/-- Python f-string rendering of an optional string (`None` prints as such). -/
def pyStr : Option String → String
  | none => "None"
  | some s => s

/-- Comparison key of `sorted(..., key=lambda x: x.mark_timestamp)`. -/
def markLE (a b : PlaylistMark) : Prop :=
  a.mark_timestamp ≤ b.mark_timestamp

instance : DecidableRel markLE := fun a b => Nat.decLe a.mark_timestamp b.mark_timestamp

instance : IsTotal PlaylistMark markLE := ⟨fun a b => Nat.le_total a.mark_timestamp b.mark_timestamp⟩

instance : IsTrans PlaylistMark markLE := ⟨fun _ _ _ h1 h2 => Nat.le_trans h1 h2⟩

/-- Python `sorted` on marks by `mark_timestamp` (a stable sort). -/
def sortMarks (l : List PlaylistMark) : List PlaylistMark :=
  List.insertionSort markLE l

/-- The walrus condition of `MplsFile.parse` step (d): the `stn_table` is
present, has nonzero length, has video-stream entries, and the first entry's
frame-rate code is truthy (nonzero); returns that code. -/
def fpsCode (item : PlayItem) : Option Nat :=
  match item.stn_table with
  | none => none
  | some t =>
      if t.length = 0 then none
      else
        match t.prim_video_stream_entries with
        | [] => none
        | e :: _ => if e.2.framerate = 0 then none else some e.2.framerate

/-- The start-offset rule of `MplsFile.parse` step (c):
`offset = item.intime if not item_marks else min(item_marks[0].mark_timestamp, item.intime)`
(the marks are already sorted by timestamp at this point). -/
def startOffset (item_marks : List PlaylistMark) (intime : Nat) : Nat :=
  match item_marks with
  | [] => intime
  | m :: _ => Nat.min m.mark_timestamp intime

/-- The chapter loop of `MplsFile.parse` step (e): for each selected mark,
`Convert.seconds2f((mark_timestamp - offset) / 45000, fps)`. -/
def itemChapters (item_marks : List PlaylistMark) (offset : Nat) (fps : ℚ) : List ℤ :=
  item_marks.map fun m =>
    Convert.seconds2f (((m.mark_timestamp : ℚ) - (offset : ℚ)) / 45000) fps

/-- One item of a parsed MPLS file (`svsfunc.bdmv.MplsItem`). -/
structure MplsItem where
  m2ts_file : List String
  chapters : List ℤ
  framerate : ℚ
  item_data : PlayItem
  item_marks : List PlaylistMark
  deriving DecidableEq, Repr

/-- A parsed MPLS file (`svsfunc.bdmv.MplsFile`). -/
structure MplsFile where
  mpls_file : List String
  items : List MplsItem
  deriving DecidableEq, Repr

/-- The per-item body of the loop of `MplsFile.parse` (`i` is the play-item
index): filename test, media-path resolution through `ensure_path`, mark
selection and sorting, `intime` check, offset computation, frame-rate code
extraction, `FRAMERATE` lookup (a dict subscript whose `KeyError` is NOT
caught by the `except AttributeError` clause), and chapter computation. -/
def buildItem (fs : FS) (m2ts_folder : List String) (marks : List PlaylistMark)
    (i : Nat) (item : PlayItem) : Except BdErr MplsItem :=
  if pyOrIsNone item.clip_information_filename item.clip_codec_identifier then
    Except.error BdErr.missingMediaReferenceError
  else
    match ensure_path fs (m2ts_folder ++
        [pyStr item.clip_information_filename ++ "." ++ pyStr item.clip_codec_identifier]) with
    | Except.error e => Except.error e
    | Except.ok file_path =>
        let item_marks := sortMarks (marks.filter fun m => m.ref_to_play_item_id == i)
        match item.intime with
        | none => Except.error BdErr.missingFieldError
        | some intime =>
            match fpsCode item with
            | none => Except.error BdErr.missingFrameRateError
            | some fps_n =>
                match FRAMERATE.lookup fps_n with
                | none => Except.error BdErr.keyError
                | some fps =>
                    Except.ok ⟨file_path, itemChapters item_marks (startOffset item_marks intime) fps,
                      fps, item, item_marks⟩

/-- The loop of `MplsFile.parse` over the enumerated play-items; the first
failing item aborts the whole parse. -/
def buildItems (fs : FS) (m2ts_folder : List String) (marks : List PlaylistMark) :
    Nat → List PlayItem → Except BdErr (List MplsItem)
  | _, [] => Except.ok []
  | i, item :: rest =>
      match buildItem fs m2ts_folder marks i item with
      | Except.error e => Except.error e
      | Except.ok it =>
          match buildItems fs m2ts_folder marks (i + 1) rest with
          | Except.error e => Except.error e
          | Except.ok its => Except.ok (it :: its)

/-- `svsfunc.bdmv.MplsFile.parse`.  The binary decode results (the play-item
list and the mark list of the playlist file, each `None` when the decoder
exposes no table) are explicit inputs; the `ensure_path` guards, the
`is None` table checks and the per-item loop follow the source. -/
def MplsFile.parse (fs : FS) (mpls_file m2ts_folder : List String)
    (play_items : Option (List PlayItem)) (playlist_marks : Option (List PlaylistMark)) :
    Except BdErr MplsFile :=
  match ensure_path fs mpls_file with
  | Except.error e => Except.error e
  | Except.ok mpls_file =>
      match ensure_path fs m2ts_folder with
      | Except.error e => Except.error e
      | Except.ok m2ts_folder =>
          match play_items with
          | none => Except.error BdErr.malformedPlaylistError
          | some items =>
              match playlist_marks with
              | none => Except.error BdErr.malformedPlaylistError
              | some marks =>
                  match buildItems fs m2ts_folder marks 0 items with
                  | Except.error e => Except.error e
                  | Except.ok its => Except.ok ⟨mpls_file, its⟩

/-- `svsfunc.bdmv.MplsItem.chapters_timestamp` (the parameter is spelled
`precison` in the source): render every chapter through `Convert.f2ts`;
the list comprehension propagates the first per-chapter failure. -/
def MplsItem.chapters_timestamp (it : MplsItem) (precison : ℤ) : Except BdErr (List String) :=
  it.chapters.mapM fun chapter => Convert.f2ts chapter it.framerate precison

/-- `svsfunc.bdmv.BdVolume`. -/
structure BdVolume where
  volume_path : List String
  mpls_folder : List String
  m2ts_folder : List String
  deriving DecidableEq, Repr

/-- `svsfunc.bdmv.BdVolume.from_path`: `ensure_path`, then require that
`path/BDMV` and `path/CERTIFICATE` both `exists()` (the source does not check
`is_dir()`), then store `BDMV/PLAYLIST` and `BDMV/STREAM` unvalidated. -/
def BdVolume.from_path (fs : FS) (path : List String) : Except BdErr BdVolume :=
  match ensure_path fs path with
  | Except.error e => Except.error e
  | Except.ok path =>
      let bdmv_folder := path ++ ["BDMV"]
      let certificate_folder := path ++ ["CERTIFICATE"]
      if !(fs.pathExists bdmv_folder && fs.pathExists certificate_folder) then
        Except.error BdErr.invalidVolumeError
      else
        Except.ok ⟨path, bdmv_folder ++ ["PLAYLIST"], bdmv_folder ++ ["STREAM"]⟩

/-- A decode oracle standing for opening a playlist file and running the
binary decoder on it: for each path, the decoded play-item table and mark
table (each `none` when absent). -/
def DecodeOracle : Type :=
  List String → Option (List PlayItem) × Option (List PlaylistMark)

/-- `svsfunc.bdmv.BdVolume.get_playlist`: zero-pad the id, glob
`PLAYLIST/<id>.mpls` (a literal pattern, so the match list is the single
existing file or empty), then the source's branch chain
`if len(files) < 0: ... elif len(files) > 1: ... else: files[0]` — the first
guard can never hold, so an empty match list reaches `files[0]` and raises
`IndexError`. -/
def BdVolume.get_playlist (fs : FS) (decode : DecodeOracle) (vol : BdVolume)
    (playlist_idx : Nat) : Except BdErr MplsFile :=
  let playlist_id := zfill5 playlist_idx
  let files : List (List String) :=
    if fs.pathExists (vol.mpls_folder ++ [playlist_id ++ ".mpls"]) then
      [vol.mpls_folder ++ [playlist_id ++ ".mpls"]]
    else []
  if files.length < 0 then Except.error BdErr.playlistNotFoundError
  else if files.length > 1 then Except.error BdErr.ambiguousPlaylistError
  else
    match files with
    | [] => Except.error BdErr.indexError
    | playlist_file :: _ =>
        MplsFile.parse fs playlist_file vol.m2ts_folder
          (decode playlist_file).1 (decode playlist_file).2

/-- `svsfunc.bdmv.BDMV`. -/
structure BDMV where
  bdmv_folder : List String
  bd_volumes : List BdVolume
  deriving DecidableEq, Repr

/-- Resolution of the volume argument list of `BDMV.from_volumes`: every raw
path goes through `BdVolume.from_path` (already constructed volumes are
modelled as raw paths here, since construction is deterministic). -/
def resolveVolumes (fs : FS) : List (List String) → Except BdErr (List BdVolume)
  | [] => Except.ok []
  | p :: ps =>
      match BdVolume.from_path fs p with
      | Except.error e => Except.error e
      | Except.ok v =>
          match resolveVolumes fs ps with
          | Except.error e => Except.error e
          | Except.ok vs => Except.ok (v :: vs)

/-- `svsfunc.bdmv.BDMV.from_volumes`: resolve the volumes; when a root folder
is given, `ensure_path` it; otherwise infer it from the zipped common parts of
all volume paths (`pyCommonParts`) and `ensure_path` the result. -/
def BDMV.from_volumes (fs : FS) (bd_volumes : List (List String))
    (bdmv_folder : Option (List String)) : Except BdErr BDMV :=
  match resolveVolumes fs bd_volumes with
  | Except.error e => Except.error e
  | Except.ok volumes =>
      match bdmv_folder with
      | some root =>
          match ensure_path fs root with
          | Except.error e => Except.error e
          | Except.ok root => Except.ok ⟨root, volumes⟩
      | none =>
          let path_parts := pyCommonParts (volumes.map BdVolume.volume_path)
          match ensure_path fs path_parts with
          | Except.error e => Except.error e
          | Except.ok common_path => Except.ok ⟨common_path, volumes⟩

/-! ### Concrete fixtures -/

/-- Fixture: STREAM folder of a one-volume disc. -/
def strmA : List String := ["/", "bd", "BDMV", "STREAM"]

/-- Fixture: path of playlist `00001.mpls`. -/
def plsA : List String := ["/", "bd", "BDMV", "PLAYLIST", "00001.mpls"]

/-- Fixture: filesystem holding the playlist, the STREAM folder and the
referenced segment `00001.m2ts`. -/
def fsA : FS :=
  ⟨[(plsA, FileKind.file), (strmA, FileKind.dir), (strmA ++ ["00001.m2ts"], FileKind.file)]⟩

/-- Fixture: a complete play-item (filename `00001`, codec `m2ts`, intime 0,
frame-rate code 1, i.e. 24000/1001). -/
def itemA : PlayItem := ⟨some "00001", some "m2ts", some 0, some ⟨1, [((), ⟨1⟩)]⟩⟩

/-- Fixture: marks for play-item 0 at ticks 0, 45000 and 2700000. -/
def marksA : List PlaylistMark := [⟨0, 0⟩, ⟨0, 45000⟩, ⟨0, 2700000⟩]

/-- Fixture: the parse result of the above (chapters 0, 24 and 1439). -/
def fileA : MplsFile :=
  ⟨plsA, [⟨strmA ++ ["00001.m2ts"], [0, 24, 1439], 24000 / 1001, itemA, marksA⟩]⟩

/-- Fixture: play-item with a MISSING filename but a present codec. -/
def itemNoName : PlayItem := ⟨none, some "m2ts", some 0, some ⟨1, [((), ⟨1⟩)]⟩⟩

/-- Fixture: filesystem without any `None.m2ts` segment. -/
def fsNoNone : FS := ⟨[(plsA, FileKind.file), (strmA, FileKind.dir)]⟩

/-- Fixture: filesystem that does hold a segment literally named `None.m2ts`. -/
def fsWithNone : FS :=
  ⟨[(plsA, FileKind.file), (strmA, FileKind.dir), (strmA ++ ["None.m2ts"], FileKind.file)]⟩

/-- Fixture: play-item whose frame-rate code 5 is not in the lookup table. -/
def itemBadFps : PlayItem := ⟨some "00001", some "m2ts", some 0, some ⟨1, [((), ⟨5⟩)]⟩⟩

/-- Fixture: a volume whose PLAYLIST folder exists but holds no playlist. -/
def volEmpty : BdVolume :=
  ⟨["/", "bd2"], ["/", "bd2", "BDMV", "PLAYLIST"], ["/", "bd2", "BDMV", "STREAM"]⟩

/-- Fixture: filesystem for `volEmpty`. -/
def fsEmptyPl : FS := ⟨[(["/", "bd2", "BDMV", "PLAYLIST"], FileKind.dir)]⟩

/-- Fixture: a decode oracle exposing no tables (never reached in its use). -/
def decodeNone : DecodeOracle := fun _ => (none, none)

/-- Fixture: two volume paths that diverge at segment 2 and re-agree later. -/
def volsDiverge : List (List String) :=
  [["/", "x", "a", "V", "s"], ["/", "x", "b", "V", "s"]]

/-- Fixture: filesystem holding both diverging volumes (and the path the
zip-based common-part computation assembles). -/
def fsDiverge : FS :=
  ⟨[(["/", "x", "a", "V", "s"], FileKind.dir),
    (["/", "x", "a", "V", "s", "BDMV"], FileKind.dir),
    (["/", "x", "a", "V", "s", "CERTIFICATE"], FileKind.dir),
    (["/", "x", "b", "V", "s"], FileKind.dir),
    (["/", "x", "b", "V", "s", "BDMV"], FileKind.dir),
    (["/", "x", "b", "V", "s", "CERTIFICATE"], FileKind.dir),
    (["/", "x", "V", "s"], FileKind.dir)]⟩

/-- Fixture: the two-volume layout of the spec's `/x/a` example. -/
def volsShared : List (List String) :=
  [["/", "x", "a", "BDMV_VOL1"], ["/", "x", "a", "BDMV_VOL2"]]

/-- Fixture: filesystem for `volsShared`. -/
def fsShared : FS :=
  ⟨[(["/", "x", "a"], FileKind.dir),
    (["/", "x", "a", "BDMV_VOL1"], FileKind.dir),
    (["/", "x", "a", "BDMV_VOL1", "BDMV"], FileKind.dir),
    (["/", "x", "a", "BDMV_VOL1", "CERTIFICATE"], FileKind.dir),
    (["/", "x", "a", "BDMV_VOL2"], FileKind.dir),
    (["/", "x", "a", "BDMV_VOL2", "BDMV"], FileKind.dir),
    (["/", "x", "a", "BDMV_VOL2", "CERTIFICATE"], FileKind.dir)]⟩

/-- Fixture: a candidate volume whose `BDMV` entry is a regular FILE. -/
def fsBdmvFile : FS :=
  ⟨[(["d"], FileKind.dir), (["d", "BDMV"], FileKind.file), (["d", "CERTIFICATE"], FileKind.dir)]⟩

/-- Fixture: an `MplsItem` with an empty chapter list. -/
def itemNoChapters : MplsItem := ⟨strmA ++ ["00001.m2ts"], [], 24, itemA, []⟩

/-! ### Helper lemmas -/

theorem round_mono_rat {p q : ℚ} (h : p ≤ q) : round p ≤ round q := by
  rw [round_eq, round_eq]
  exact Int.floor_le_floor (by linarith)

theorem framerate_lookup_pos {c : Nat} {q : ℚ} (h : FRAMERATE.lookup c = some q) : 0 < q := by
  simp only [FRAMERATE, List.lookup] at h
  repeat' split at h
  all_goals cases h
  all_goals norm_num

theorem sortMarks_sorted (l : List PlaylistMark) : List.Sorted markLE (sortMarks l) :=
  List.sorted_insertionSort markLE l

theorem startOffset_le {ms : List PlaylistMark} (hs : List.Sorted markLE ms) (intime : Nat) :
    ∀ m ∈ ms, startOffset ms intime ≤ m.mark_timestamp := by
  cases ms with
  | nil => intro m hm; cases hm
  | cons m0 tl =>
      intro m hm
      rcases List.mem_cons.mp hm with rfl | hm2
      · exact Nat.min_le_left _ _
      · exact Nat.le_trans (Nat.min_le_left _ _) (List.rel_of_sorted_cons hs m hm2)

theorem seconds2f_mono {fps : ℚ} (hf : 0 ≤ fps) {offset : ℕ} {a b : PlaylistMark}
    (hab : markLE a b) :
    Convert.seconds2f (((a.mark_timestamp : ℚ) - (offset : ℚ)) / 45000) fps ≤
      Convert.seconds2f (((b.mark_timestamp : ℚ) - (offset : ℚ)) / 45000) fps := by
  unfold Convert.seconds2f
  apply round_mono_rat
  have hc : ((a.mark_timestamp : ℚ)) ≤ (b.mark_timestamp : ℚ) := by exact_mod_cast hab
  have hdiv : ((a.mark_timestamp : ℚ) - (offset : ℚ)) / 45000 ≤
      ((b.mark_timestamp : ℚ) - (offset : ℚ)) / 45000 := by linarith
  exact mul_le_mul_of_nonneg_right hdiv hf

theorem seconds2f_nonneg {fps : ℚ} (hf : 0 ≤ fps) {offset : ℕ} {m : PlaylistMark}
    (h : offset ≤ m.mark_timestamp) :
    0 ≤ Convert.seconds2f (((m.mark_timestamp : ℚ) - (offset : ℚ)) / 45000) fps := by
  unfold Convert.seconds2f
  have hc : ((offset : ℚ)) ≤ (m.mark_timestamp : ℚ) := by exact_mod_cast h
  have hq : (0 : ℚ) ≤ ((m.mark_timestamp : ℚ) - (offset : ℚ)) / 45000 := by linarith
  have := round_mono_rat (mul_nonneg hq hf)
  simpa using this

theorem itemChapters_sorted_nonneg {fps : ℚ} (hf : 0 ≤ fps) {offset : ℕ}
    {ms : List PlaylistMark} (hs : List.Sorted markLE ms)
    (hoff : ∀ m ∈ ms, offset ≤ m.mark_timestamp) :
    (itemChapters ms offset fps).Sorted (· ≤ ·) ∧ ∀ c ∈ itemChapters ms offset fps, 0 ≤ c := by
  constructor
  · exact List.pairwise_map.mpr (hs.imp fun hab => seconds2f_mono hf hab)
  · intro c hc
    rcases List.mem_map.mp hc with ⟨m, hm, rfl⟩
    exact seconds2f_nonneg hf (hoff m hm)

theorem buildItem_ok_chapters {fs : FS} {m2ts : List String} {marks : List PlaylistMark}
    {i : ℕ} {item : PlayItem} {it : MplsItem}
    (h : buildItem fs m2ts marks i item = Except.ok it) :
    it.chapters.Sorted (· ≤ ·) ∧ ∀ c ∈ it.chapters, 0 ≤ c := by
  simp only [buildItem] at h
  split at h
  · simp at h
  · split at h
    · simp at h
    · split at h
      · simp at h
      · split at h
        · simp at h
        · split at h
          · simp at h
          · rename_i fps heq
            injection h with h
            subst h
            exact itemChapters_sorted_nonneg (le_of_lt (framerate_lookup_pos heq))
              (sortMarks_sorted _) (startOffset_le (sortMarks_sorted _) _)

theorem buildItems_ok_chapters {fs : FS} {m2ts : List String} {marks : List PlaylistMark} :
    ∀ {i : ℕ} {items : List PlayItem} {its : List MplsItem},
      buildItems fs m2ts marks i items = Except.ok its →
      ∀ it ∈ its, it.chapters.Sorted (· ≤ ·) ∧ ∀ c ∈ it.chapters, 0 ≤ c := by
  intro i items
  induction items generalizing i with
  | nil =>
      intro its h it hit
      simp only [buildItems] at h
      injection h with h
      subst h
      cases hit
  | cons a rest ih =>
      intro its h it hit
      simp only [buildItems] at h
      split at h
      · simp at h
      · rename_i it0 heq
        split at h
        · simp at h
        · rename_i its0 heq2
          injection h with h
          subst h
          rcases List.mem_cons.mp hit with rfl | hmem
          · exact buildItem_ok_chapters heq
          · exact ih heq2 it hmem

set_option maxHeartbeats 1000000

theorem parseA_eval :
    MplsFile.parse fsA plsA strmA (some [itemA]) (some marksA) = Except.ok fileA := by
  simp +decide [MplsFile.parse, buildItems, buildItem, ensure_path, FS.pathExists, FS.kindOf,
    fsA, plsA, strmA, itemA, marksA, fileA, sortMarks, List.insertionSort, List.orderedInsert,
    markLE, fpsCode, FRAMERATE, pyOrIsNone, pyTruthy, pyStr, itemChapters, startOffset,
    Convert.seconds2f]
  norm_num [round_eq]

/-! ### Claim theorems -/

/-- C1: for every successfully parsed playlist and every play-item in it, the
`MplsItem.chapters` list produced by `MplsFile.parse` is sorted in ascending
order and every entry is nonnegative (relative to the item's start offset),
regardless of the order of the raw marks in the decoded mark table. -/
theorem parse_chapters_sorted_nonneg (fs : FS) (p m : List String)
    (pis : Option (List PlayItem)) (ms : Option (List PlaylistMark)) (out : MplsFile)
    (h : MplsFile.parse fs p m pis ms = Except.ok out) :
    ∀ it ∈ out.items, it.chapters.Sorted (· ≤ ·) ∧ ∀ c ∈ it.chapters, 0 ≤ c := by
  simp only [MplsFile.parse] at h
  split at h
  · simp at h
  · split at h
    · simp at h
    · split at h
      · simp at h
      · split at h
        · simp at h
        · split at h
          · simp at h
          · rename_i its heq
            injection h with h
            subst h
            exact fun it hit => buildItems_ok_chapters heq it hit

/-- Witness for C1: the 24000/1001 fixture parses and its chapter list
`[0, 24, 1439]` is sorted and nonnegative. -/
theorem parse_chapters_sorted_nonneg_witness :
    MplsFile.parse fsA plsA strmA (some [itemA]) (some marksA) = Except.ok fileA ∧
    ∀ it ∈ fileA.items, it.chapters.Sorted (· ≤ ·) ∧ ∀ c ∈ it.chapters, 0 ≤ c :=
  ⟨parseA_eval,
    parse_chapters_sorted_nonneg fsA plsA strmA (some [itemA]) (some marksA) fileA parseA_eval⟩

/-- C2 (counterexample): with frame rate 24000/1001, start offset 0 and marks
at ticks 0, 45000 and 2700000, the chapter computation yields `[0, 24, 1439]`
(45000 ticks is one second, which is frame `round(1 · 24000/1001) = 24`), not
the claimed `[0, 1, 60]`. -/
theorem parse_fixture_chapters_ne_claimed :
    (MplsFile.parse fsA plsA strmA (some [itemA]) (some marksA)).map
        (fun f => f.items.map MplsItem.chapters) = Except.ok [[0, 24, 1439]] ∧
    ([[0, 24, 1439]] : List (List ℤ)) ≠ [[0, 1, 60]] := by
  constructor
  · rw [parseA_eval]; rfl
  · decide

/-- C2 (amended): with frame rate 24000/1001, start offset 0 and marks at
ticks 0, 45000 and 2700000, the chapter computation
`frame = round((mark_tick - start_offset_tick) / 45000 · fps)` in exact
rational arithmetic yields the frame list `[0, 24, 1439]`. -/
theorem parse_fixture_chapters_eval :
    (MplsFile.parse fsA plsA strmA (some [itemA]) (some marksA)).map
        (fun f => f.items.map MplsItem.chapters) = Except.ok [[0, 24, 1439]] := by
  rw [parseA_eval]; rfl

/-- C3 (failing input): on a volume whose PLAYLIST folder holds no
`00001.mpls`, `get_playlist 1` does NOT raise `PlaylistNotFoundError`: the
guard `len(files) < 0` can never hold, so the empty match list reaches
`files[0]`, which raises `IndexError`. -/
theorem get_playlist_zero_matches_index_error :
    BdVolume.get_playlist fsEmptyPl decodeNone volEmpty 1 = Except.error BdErr.indexError ∧
    BdErr.indexError ≠ BdErr.playlistNotFoundError := by
  exact ⟨rfl, by decide⟩

/-- C4 (failing input): for volumes `/x/a/V/s` and `/x/b/V/s`,
`BDMV.from_volumes` without an explicit root infers `/x/V/s` — it keeps every
path-segment position on which all volumes agree, including positions after
the first divergence — while the longest shared prefix stopping at the first
divergence is `/x`.  The spec's own `/x/a` example does hold, because there no
position after the divergence re-agrees. -/
theorem from_volumes_common_path_not_lcp :
    (BDMV.from_volumes fsDiverge volsDiverge none).map BDMV.bdmv_folder =
        Except.ok ["/", "x", "V", "s"] ∧
    lcpParts volsDiverge = ["/", "x"] ∧
    (["/", "x", "V", "s"] : List String) ≠ ["/", "x"] ∧
    (BDMV.from_volumes fsShared volsShared none).map BDMV.bdmv_folder =
        Except.ok ["/", "x", "a"] := by
  exact ⟨rfl, rfl, by decide, rfl⟩

/-- C5 (failing input): a play-item with a missing filename but a present
codec identifier does NOT raise `MissingMediaReferenceError`: the test
`(file_name or file_ext) is None` is false whenever the codec is present, so
parsing proceeds to resolve `STREAM/None.m2ts` and fails with the
path-does-not-exist error instead — and even SUCCEEDS when a file literally
named `None.m2ts` exists. -/
theorem parse_missing_filename_skips_media_error :
    MplsFile.parse fsNoNone plsA strmA (some [itemNoName]) (some []) =
        Except.error BdErr.invalidPathError ∧
    (MplsFile.parse fsWithNone plsA strmA (some [itemNoName]) (some [])).isOk = true := by
  exact ⟨rfl, rfl⟩

/-- C6 (failing input): a play-item whose frame-rate code 5 is not a key of
the lookup table does NOT raise `UnknownFrameRateError`: the dictionary
subscript raises `KeyError`, which the `except AttributeError` clause does not
catch, so the `KeyError` escapes and the documented `ValueError` is dead
code. -/
theorem parse_unknown_framerate_code_key_error :
    MplsFile.parse fsA plsA strmA (some [itemBadFps]) (some marksA) =
        Except.error BdErr.keyError ∧
    BdErr.keyError ≠ BdErr.unknownFrameRateError := by
  exact ⟨rfl, by decide⟩

/-- C7 (counterexample): a playlist whose decoded play-item list is present
but EMPTY parses successfully into an `MplsFile` with zero items, instead of
raising `MalformedPlaylistError` as the claim states. -/
theorem parse_empty_play_items_ok :
    MplsFile.parse fsA plsA strmA (some []) (some marksA) = Except.ok ⟨plsA, []⟩ := rfl

/-- C7 (amended): `MplsFile.parse` fails with `MalformedPlaylistError` exactly
when the decoded play-item list is absent (`None`); an empty decoded list
yields an `MplsFile` with zero items. -/
theorem parse_play_items_none_malformed (fs : FS) (p m : List String)
    (hp : fs.pathExists p = true) (hm : fs.pathExists m = true) :
    (∀ ms, MplsFile.parse fs p m none ms = Except.error BdErr.malformedPlaylistError) ∧
    (∀ marks, MplsFile.parse fs p m (some []) (some marks) = Except.ok ⟨p, []⟩) := by
  constructor <;> intro ms <;>
    simp [MplsFile.parse, ensure_path, hp, hm, buildItems]

/-- Witness for C7's amended theorem at the concrete fixture. -/
theorem parse_play_items_none_malformed_witness :
    fsA.pathExists plsA = true ∧ fsA.pathExists strmA = true ∧
    ((∀ ms, MplsFile.parse fsA plsA strmA none ms = Except.error BdErr.malformedPlaylistError) ∧
      (∀ marks, MplsFile.parse fsA plsA strmA (some []) (some marks) = Except.ok ⟨plsA, []⟩)) :=
  ⟨rfl, rfl, parse_play_items_none_malformed fsA plsA strmA rfl rfl⟩

/-- C8 (counterexample): on a volume whose `BDMV` entry exists but is a
regular FILE (not a directory), `BdVolume.from_path` still succeeds, because
the source checks `exists()` and not `is_dir()`; the claim's
"exist as directories" reading would require `InvalidVolumeError` here. -/
theorem from_path_accepts_nondir_bdmv :
    (BdVolume.from_path fsBdmvFile ["d"]).isOk = true ∧
    fsBdmvFile.isDir ["d", "BDMV"] = false := by
  exact ⟨rfl, rfl⟩

/-- C8 (amended): for every existing path V, `BdVolume.from_path V` succeeds
iff `V/BDMV` and `V/CERTIFICATE` both EXIST (of any file kind, directory not
required), raising `InvalidVolumeError` otherwise, and on success stores
`V/BDMV/PLAYLIST` and `V/BDMV/STREAM` without re-validating their
existence. -/
theorem from_path_exists_characterization (fs : FS) (path : List String)
    (h : fs.pathExists path = true) :
    BdVolume.from_path fs path =
      if fs.pathExists (path ++ ["BDMV"]) && fs.pathExists (path ++ ["CERTIFICATE"]) then
        Except.ok ⟨path, path ++ ["BDMV", "PLAYLIST"], path ++ ["BDMV", "STREAM"]⟩
      else Except.error BdErr.invalidVolumeError := by
  cases hb : fs.pathExists (path ++ ["BDMV"]) && fs.pathExists (path ++ ["CERTIFICATE"]) with
  | false => simp [BdVolume.from_path, ensure_path, h, hb]
  | true => simp [BdVolume.from_path, ensure_path, h, hb, List.append_assoc]

/-- Witness for C8's amended theorem at the concrete fixture (both entries
exist, `BDMV` as a file, so construction succeeds). -/
theorem from_path_exists_characterization_witness :
    fsBdmvFile.pathExists ["d"] = true ∧
    BdVolume.from_path fsBdmvFile ["d"] =
      if fsBdmvFile.pathExists (["d"] ++ ["BDMV"]) &&
          fsBdmvFile.pathExists (["d"] ++ ["CERTIFICATE"]) then
        Except.ok ⟨["d"], ["d"] ++ ["BDMV", "PLAYLIST"], ["d"] ++ ["BDMV", "STREAM"]⟩
      else Except.error BdErr.invalidVolumeError :=
  ⟨rfl, from_path_exists_characterization fsBdmvFile ["d"] rfl⟩

/-- C9: `MplsFile.parse` additionally requires the referenced media segment to
exist on disk: for a play-item with both filename and codec identifier present
at the head of the play-item list, if `STREAM/<filename>.<codec>` does not
exist, the parse fails with the path-does-not-exist error of `ensure_path`. -/
theorem parse_missing_stream_file_invalid_path (fs : FS) (p m : List String)
    (hp : fs.pathExists p = true) (hm : fs.pathExists m = true)
    (item : PlayItem) (rest : List PlayItem) (marks : List PlaylistMark) (fn fe : String)
    (hfn : item.clip_information_filename = some fn)
    (hfe : item.clip_codec_identifier = some fe)
    (habs : fs.pathExists (m ++ [fn ++ "." ++ fe]) = false) :
    MplsFile.parse fs p m (some (item :: rest)) (some marks) =
      Except.error BdErr.invalidPathError := by
  simp [MplsFile.parse, ensure_path, hp, hm, buildItems, buildItem, pyOrIsNone, pyTruthy,
    pyStr, hfn, hfe, habs]

/-- Witness for C9: the fixture item references `00001.m2ts`, absent from the
fixture filesystem, and the parse fails with the path error. -/
theorem parse_missing_stream_file_invalid_path_witness :
    fsNoNone.pathExists plsA = true ∧ fsNoNone.pathExists strmA = true ∧
    itemA.clip_information_filename = some "00001" ∧
    itemA.clip_codec_identifier = some "m2ts" ∧
    fsNoNone.pathExists (strmA ++ ["00001" ++ "." ++ "m2ts"]) = false ∧
    MplsFile.parse fsNoNone plsA strmA (some [itemA]) (some marksA) =
      Except.error BdErr.invalidPathError :=
  ⟨rfl, rfl, rfl, rfl, rfl,
    parse_missing_stream_file_invalid_path fsNoNone plsA strmA rfl rfl itemA [] marksA
      "00001" "m2ts" rfl rfl rfl⟩

/-- C10: for every `MplsItem` with an empty chapter list,
`chapters_timestamp p` returns the empty list for EVERY integer precision `p`
and never raises — the precision validation lives in the per-chapter
conversion, which is never called on an empty list. -/
theorem chapters_timestamp_empty (it : MplsItem) (p : ℤ) (h : it.chapters = []) :
    it.chapters_timestamp p = Except.ok [] := by
  unfold MplsItem.chapters_timestamp
  rw [h]
  rfl

/-- Witness for C10: an item without chapters, rendered at the INVALID
precision 7 (not a multiple of 3), still yields the empty list. -/
theorem chapters_timestamp_empty_witness :
    itemNoChapters.chapters = [] ∧ itemNoChapters.chapters_timestamp 7 = Except.ok [] :=
  ⟨rfl, chapters_timestamp_empty itemNoChapters 7 rfl⟩
